/-
  Verification of the SureOdds payment / entitlement core.

  Shallow embedding of the M-Pesa payment pipeline of the repository:
    * src/lib/mpesa helpers: formatPhoneNumber, calculateEndDate,
      getPlanPrice, parseCallback
    * POST /api/mpesa/stkpush  (payment initiation)
    * POST /api/mpesa/callback (callback reconciliation)
    * GET  /api/mpesa/status   (status poller)
    * POST /api/vouchers/redeem (voucher redemption)

  Conventions of the embedding:
    * instants are natural numbers of milliseconds (`new Date()` becomes an
      explicit `now : Nat` argument);
    * the Prisma store is an explicit record of lists of rows, threaded
      through each handler;
    * `prisma.$transaction` is modelled by `runPrismaTxn`: an optional fault
      index aborts the block and rolls the store back to its pre-state,
      mirroring the roll-back-on-exception semantics of a database
      transaction;
    * external effects (the processor's STK push response, JSON parsing of
      the inbound request body) are oracle inputs to the handler;
    * callback metadata values are represented by their string rendering
      (the route only copies them through; no claim inspects their type).
-/
import Mathlib

namespace SureOdds

/-! ## Data model (prisma rows) -/

/-- A `Transaction` row (Payment Request). -/
structure Transaction where
  id : Nat
  userId : String
  merchantRequestID : String
  checkoutRequestID : String
  amount : Nat
  phone : String
  planType : String
  status : String
  mpesaReceipt : Option String
  resultDesc : Option String
  createdAt : Nat
  deriving Repr, DecidableEq

/-- A `Subscription` row (Entitlement Grant). -/
structure Subscription where
  userId : String
  planType : String
  startDate : Nat
  endDate : Nat
  isActive : Bool
  createdAt : Nat
  deriving Repr, DecidableEq

/-- A `Voucher` row. -/
structure Voucher where
  id : Nat
  code : String
  planType : String
  isRedeemed : Bool
  expiresAt : Nat
  redeemedBy : Option String
  redeemedAt : Option Nat
  deriving Repr, DecidableEq

/-- A `User` row (only the field the payment core writes). -/
structure User where
  id : String
  phone : Option String
  deriving Repr, DecidableEq

/-- The persistent store: the tables the payment core touches. -/
structure Store where
  transactions : List Transaction
  subscriptions : List Subscription
  vouchers : List Voucher
  users : List User
  deriving Repr, DecidableEq

/-- An authenticated session (`session.user`). -/
structure Session where
  userId : String
  email : String
  name : Option String
  phone : Option String
  deriving Repr, DecidableEq

/-! ## src/lib/mpesa: pure helpers -/

/-- The branch chain of `formatPhoneNumber`, acting on the character list of
the already-cleaned string:
`if (cleaned.startsWith('0')) cleaned = '254' + cleaned.substring(1);
 else if (cleaned.startsWith('+254')) cleaned = cleaned.substring(1);
 else if (!cleaned.startsWith('254')) cleaned = '254' + cleaned;` -/
def formatPhoneDigits (cleaned : List Char) : List Char :=
  if cleaned.take 1 = ['0'] then '2' :: '5' :: '4' :: cleaned.drop 1
  else if cleaned.take 4 = ['+', '2', '5', '4'] then cleaned.drop 1
  else if ¬ (cleaned.take 3 = ['2', '5', '4']) then '2' :: '5' :: '4' :: cleaned
  else cleaned

/-- `formatPhoneNumber` of src/lib/mpesa: strip whitespace and every
non-digit character (`replace(/\s+/g, '').replace(/[^0-9]/g, '')` keeps
exactly the ASCII digits), then fix up the prefix. -/
def formatPhoneNumber (phone : String) : String :=
  String.mk (formatPhoneDigits (phone.toList.filter Char.isDigit))

/-- Milliseconds in a day. -/
def dayMs : Nat := 24 * 60 * 60 * 1000

/-- `toUpperCase()` on the character data (the plan and voucher strings are
ASCII, where `Char.toUpper` agrees with the JS method). -/
def strToUpper (s : String) : String := String.mk (s.toList.map Char.toUpper)

/-- `trim()`: whitespace stripped from both ends. -/
def strTrim (s : String) : String :=
  String.mk (((s.toList.dropWhile Char.isWhitespace).reverse.dropWhile
    Char.isWhitespace).reverse)

/-- `calculateEndDate` of src/lib/mpesa, with `new Date()` made explicit as
`now` (milliseconds): `now + 1/7/30 days` by plan type, defaulting to daily. -/
def calculateEndDate (now : Nat) (planType : String) : Nat :=
  let p := strToUpper planType
  if p = "DAILY" then now + dayMs
  else if p = "WEEKLY" then now + 7 * dayMs
  else if p = "MONTHLY" then now + 30 * dayMs
  else now + dayMs

/-- The per-plan price environment (`process.env.PRICE_*`, unset = `none`). -/
structure PriceEnv where
  priceDaily : Option Nat
  priceWeekly : Option Nat
  priceMonthly : Option Nat
  deriving Repr, DecidableEq

/-- `getPlanPrice` of src/lib/mpesa: env price with hard-coded fallbacks. -/
def getPlanPrice (env : PriceEnv) (planType : String) : Nat :=
  let p := strToUpper planType
  if p = "DAILY" then env.priceDaily.getD 50
  else if p = "WEEKLY" then env.priceWeekly.getD 250
  else if p = "MONTHLY" then env.priceMonthly.getD 800
  else 50

/-! ## src/lib/mpesa: parseCallback -/

/-- One `{Name, Value}` item of `CallbackMetadata.Item`. -/
structure MetaItem where
  name : String
  value : String
  deriving Repr, DecidableEq

/-- The nested `Body.stkCallback` envelope of the processor's callback. -/
structure StkCallback where
  merchantRequestID : String
  checkoutRequestID : String
  resultCode : Int
  resultDesc : String
  metadata : Option (List MetaItem)
  deriving Repr, DecidableEq

/-- The request body of the callback: `body.Body?.stkCallback` may be
absent (malformed payload). -/
structure CallbackBody where
  stkCallback : Option StkCallback
  deriving Repr, DecidableEq

/-- The result of `parseCallback` (interface `MpesaCallbackData`). -/
structure MpesaCallbackData where
  merchantRequestId : String
  checkoutRequestId : String
  resultCode : Int
  resultDesc : String
  amount : Option String
  mpesaReceiptNumber : Option String
  transactionDate : Option String
  phoneNumber : Option String
  deriving Repr, DecidableEq

/-- The metadata `for` loop of `parseCallback`: each recognised item name
overwrites the corresponding field. -/
def applyMetaItem (acc : MpesaCallbackData) (item : MetaItem) : MpesaCallbackData :=
  match item.name with
  | "Amount" => { acc with amount := some item.value }
  | "MpesaReceiptNumber" => { acc with mpesaReceiptNumber := some item.value }
  | "TransactionDate" => { acc with transactionDate := some item.value }
  | "PhoneNumber" => { acc with phoneNumber := some item.value }
  | _ => acc

/-- `parseCallback` of src/lib/mpesa: throws (`Except.error`) when the
nested `stkCallback` envelope is missing; extracts the metadata items only
when the result code is 0 and the metadata list is present. -/
def parseCallback (body : CallbackBody) : Except String MpesaCallbackData :=
  match body.stkCallback with
  | none => .error "Invalid callback body"
  | some cb =>
    let base : MpesaCallbackData :=
      { merchantRequestId := cb.merchantRequestID
        checkoutRequestId := cb.checkoutRequestID
        resultCode := cb.resultCode
        resultDesc := cb.resultDesc
        amount := none, mpesaReceiptNumber := none
        transactionDate := none, phoneNumber := none }
    match cb.resultCode, cb.metadata with
    | 0, some items => .ok (items.foldl applyMetaItem base)
    | _, _ => .ok base

/-! ## POST /api/mpesa/callback -/

/-- The JSON body of the callback endpoint's response:
`NextResponse.json({ResultCode, ResultDesc})`, HTTP status defaulting to
200. -/
structure CbResponse where
  httpStatus : Nat
  resultCode : Int
  resultDesc : String
  deriving Repr, DecidableEq

/-- The acknowledgement returned on every no-op / error path. -/
def ackAccepted : CbResponse :=
  { httpStatus := 200, resultCode := 0, resultDesc := "Accepted" }

/-- The acknowledgement returned after processing a PENDING request. -/
def ackProcessed : CbResponse :=
  { httpStatus := 200, resultCode := 0
    resultDesc := "Callback received and processed" }

/-- `tx.transaction.update` of the success branch: set status SUCCESS,
receipt and result description on the row with the given id. -/
def updateTxSuccess (txId : Nat) (cd : MpesaCallbackData) (st : Store) : Store :=
  { st with transactions := st.transactions.map fun t =>
      if t.id = txId then
        { t with status := "SUCCESS"
                 mpesaReceipt := cd.mpesaReceiptNumber
                 resultDesc := some cd.resultDesc }
      else t }

/-- The row update of `tx.subscription.updateMany`: a row matching
`{userId = uid, isActive = true}` gets `isActive := false`, any other row
is untouched. -/
def deactivateFn (uid : String) (s : Subscription) : Subscription :=
  if s.userId = uid ∧ s.isActive then { s with isActive := false } else s

/-- `tx.subscription.updateMany` of the success branch: every row with
`userId = uid` and `isActive = true` gets `isActive := false`. -/
def deactivateSubs (uid : String) (st : Store) : Store :=
  { st with subscriptions := st.subscriptions.map (deactivateFn uid) }

/-- The subscription row inserted by the success branch:
`{userId, planType, startDate: new Date(), endDate, isActive: true}`. -/
def newGrant (now : Nat) (uid planType : String) : Subscription :=
  { userId := uid, planType := planType, startDate := now
    endDate := calculateEndDate now planType
    isActive := true, createdAt := now }

/-- `tx.subscription.create` of the success branch: append one new active
subscription with `endDate = calculateEndDate(planType)`. -/
def createSub (now : Nat) (uid planType : String) (st : Store) : Store :=
  { st with subscriptions := st.subscriptions ++ [newGrant now uid planType] }

/-- `prisma.transaction.update` of the failure branch: set status FAILED
and the result description. -/
def updateTxFailed (txId : Nat) (cd : MpesaCallbackData) (st : Store) : Store :=
  { st with transactions := st.transactions.map fun t =>
      if t.id = txId then
        { t with status := "FAILED", resultDesc := some cd.resultDesc }
      else t }

/-- `prisma.$transaction`: run the write steps in order; a fault at index
`k < steps.length` raises inside the block, so every write is rolled back
and the error propagates to the caller. -/
def runPrismaTxn (steps : List (Store → Store)) (fault : Option Nat)
    (st : Store) : Except Unit Store :=
  match fault with
  | some k => if k < steps.length then .error () else .ok (steps.foldl (fun s f => f s) st)
  | none => .ok (steps.foldl (fun s f => f s) st)

/-- The three writes of §4.2 step 5, in source order. -/
def callbackTxnSteps (now : Nat) (cd : MpesaCallbackData) (tx : Transaction) :
    List (Store → Store) :=
  [updateTxSuccess tx.id cd, deactivateSubs tx.userId,
   createSub now tx.userId tx.planType]

/-- The full post-state of a successful reconciliation. -/
def callbackSuccessPost (now : Nat) (cd : MpesaCallbackData) (tx : Transaction)
    (st : Store) : Store :=
  createSub now tx.userId tx.planType (deactivateSubs tx.userId (updateTxSuccess tx.id cd st))

/-- The transaction row as rewritten by the success branch. -/
def successTx (cd : MpesaCallbackData) (tx : Transaction) : Transaction :=
  { tx with status := "SUCCESS", mpesaReceipt := cd.mpesaReceiptNumber
            resultDesc := some cd.resultDesc }

/-- POST /api/mpesa/callback.  `body = none` models a request whose JSON
parsing throws; `fault` models an exception raised inside the
`prisma.$transaction` block (caught by the outer handler, which still
acknowledges). -/
def callbackPOST (now : Nat) (body : Option CallbackBody) (fault : Option Nat)
    (st : Store) : Store × CbResponse :=
  match body with
  | none => (st, ackAccepted)
  | some b =>
    match parseCallback b with
    | .error _ => (st, ackAccepted)
    | .ok cd =>
      match st.transactions.find? (fun t => t.checkoutRequestID == cd.checkoutRequestId) with
      | none => (st, ackAccepted)
      | some tx =>
        if tx.status ≠ "PENDING" then (st, ackAccepted)
        else if cd.resultCode = 0 then
          match runPrismaTxn (callbackTxnSteps now cd tx) fault st with
          | .ok st' => (st', ackProcessed)
          | .error _ => (st, ackAccepted)
        else
          (updateTxFailed tx.id cd st, ackProcessed)

/-! ## POST /api/mpesa/stkpush -/

/-- The request body `{phone, planType}` after `request.json()`. -/
structure StkBody where
  phone : String
  planType : String
  deriving Repr, DecidableEq

/-- The processor's STK push response. -/
structure StkPushResponse where
  merchantRequestID : String
  checkoutRequestID : String
  responseCode : String
  responseDescription : String
  customerMessage : String
  deriving Repr, DecidableEq

/-- The responses of the initiation endpoint, one constructor per distinct
exit of the route. -/
inductive StkResp where
  /-- 401 `{error: 'Please log in to make a payment'}` -/
  | unauthorized : StkResp
  /-- 400 `{error: validation.error.errors[0].message}` -/
  | badRequest (error : String) : StkResp
  /-- 400 `{error, subscriptionEnd}` -/
  | activeSub (error : String) (subscriptionEnd : Nat) : StkResp
  /-- 400 `{error, checkoutRequestId}` -/
  | pendingTx (error : String) (checkoutRequestId : String) : StkResp
  /-- 400 `{error}` on a non-zero processor response code -/
  | stkFail (error : String) : StkResp
  /-- 200 `{success, message, checkoutRequestId}` -/
  | ok (message : String) (checkoutRequestId : String) : StkResp
  /-- 500 `{error}` from the catch-all -/
  | serverError (error : String) : StkResp
  deriving Repr, DecidableEq

/-- The zod schema `stkPushSchema.safeParse`: `phone` at least 9
characters, `planType` one of the three enum values; the first failing
field's message is surfaced. -/
def stkPushValidate (b : StkBody) : Except String StkBody :=
  if b.phone.length < 9 then .error "Invalid phone number"
  else if ¬ (b.planType = "DAILY" ∨ b.planType = "WEEKLY" ∨ b.planType = "MONTHLY") then
    .error "Invalid plan type"
  else .ok b

/-- Step 7 of the route: insert one PENDING transaction row. -/
def createPendingTx (now : Nat) (txId : Nat) (uid : String) (resp : StkPushResponse)
    (amount : Nat) (phone planType : String) (st : Store) : Store :=
  { st with transactions := st.transactions ++
      [{ id := txId, userId := uid
         merchantRequestID := resp.merchantRequestID
         checkoutRequestID := resp.checkoutRequestID
         amount := amount, phone := phone, planType := planType
         status := "PENDING", mpesaReceipt := none, resultDesc := none
         createdAt := now }] }

/-- Step 8 of the route: backfill the user's phone when the session has
none. -/
def updateUserPhone (uid phone : String) (st : Store) : Store :=
  { st with users := st.users.map fun u =>
      if u.id = uid then { u with phone := some phone } else u }

/-- POST /api/mpesa/stkpush.  `pushResult` is the oracle for the
`initiateStkPush` network call (`Except.error` = the call threw); `txId`
is the id the store assigns to a newly inserted row. -/
def stkpushPOST (now : Nat) (session : Option Session) (body : StkBody)
    (pushResult : Except String StkPushResponse) (env : PriceEnv) (txId : Nat)
    (st : Store) : Store × StkResp :=
  match session with
  | none => (st, .unauthorized)
  | some sess =>
    match stkPushValidate body with
    | .error msg => (st, .badRequest msg)
    | .ok b =>
      let amount := getPlanPrice env b.planType
      let formattedPhone := formatPhoneNumber b.phone
      match st.subscriptions.find? (fun s =>
          s.userId == sess.userId && s.isActive && now ≤ s.endDate) with
      | some s => (st, .activeSub "You already have an active subscription" s.endDate)
      | none =>
        match st.transactions.find? (fun t =>
            t.userId == sess.userId && t.status == "PENDING" &&
            now - 5 * 60 * 1000 ≤ t.createdAt) with
        | some t => (st, .pendingTx
            "You have a pending payment. Please check your phone or wait a moment."
            t.checkoutRequestID)
        | none =>
          match pushResult with
          | .error msg => (st, .serverError msg)
          | .ok resp =>
            if resp.responseCode ≠ "0" then
              (st, .stkFail (if resp.responseDescription = "" then
                "Failed to initiate payment" else resp.responseDescription))
            else
              let st1 := createPendingTx now txId sess.userId resp amount
                formattedPhone b.planType st
              let st2 := if sess.phone = none then
                updateUserPhone sess.userId formattedPhone st1 else st1
              (st2, .ok resp.customerMessage resp.checkoutRequestID)

/-! ## GET /api/mpesa/status -/

/-- The subscription part of the poller's response:
`{planType, endDate}`. -/
structure SubView where
  planType : String
  endDate : Nat
  deriving Repr, DecidableEq

/-- The responses of the status endpoint. -/
inductive StatusResp where
  /-- 401 `{error: 'Unauthorized'}` -/
  | unauthorized : StatusResp
  /-- 400 `{error: 'Missing checkoutRequestId'}` -/
  | missingParam : StatusResp
  /-- 404 `{error: 'Transaction not found'}` -/
  | notFound : StatusResp
  /-- 200 `{status, mpesaReceipt, resultDesc, subscription}` -/
  | ok (status : String) (mpesaReceipt : Option String)
       (resultDesc : Option String) (subscription : Option SubView) : StatusResp
  deriving Repr, DecidableEq

/-- The accumulator of `orderBy: {createdAt: 'desc'} + findFirst`: keep
the row with the greatest `createdAt`, the earlier row on ties. -/
def pickLatest (acc : Option Subscription) (s : Subscription) : Option Subscription :=
  match acc with
  | none => some s
  | some b => if b.createdAt < s.createdAt then some s else acc

/-- `prisma.subscription.findFirst({where: {userId, isActive, endDate ≥ now},
orderBy: {createdAt: 'desc'}})`: among the matching rows, the one with the
greatest `createdAt` (first such row in store order on ties). -/
def latestActiveSub (uid : String) (now : Nat) (subs : List Subscription) :
    Option Subscription :=
  (subs.filter fun s => s.userId == uid && s.isActive && now ≤ s.endDate).foldl
    pickLatest none

/-- GET /api/mpesa/status?checkoutRequestId=… -/
def statusGET (now : Nat) (session : Option Session)
    (checkoutRequestId : Option String) (st : Store) : StatusResp :=
  match session with
  | none => .unauthorized
  | some sess =>
    match checkoutRequestId with
    | none => .missingParam
    | some cid =>
      match st.transactions.find? (fun t =>
          t.checkoutRequestID == cid && t.userId == sess.userId) with
      | none => .notFound
      | some tx =>
        let subscription :=
          if tx.status == "SUCCESS" then
            (latestActiveSub sess.userId now st.subscriptions).map
              (fun s => SubView.mk s.planType s.endDate)
          else none
        .ok tx.status tx.mpesaReceipt tx.resultDesc subscription

/-! ## POST /api/vouchers/redeem -/

/-- The responses of the voucher redemption endpoint. -/
inductive RedeemResp where
  | unauthorized : RedeemResp
  | missingCode : RedeemResp
  | invalidCode : RedeemResp
  | alreadyUsed : RedeemResp
  | expired : RedeemResp
  | invalidPlan : RedeemResp
  | ok (planType : String) (startDate endDate : Nat) : RedeemResp
  deriving Repr, DecidableEq

/-- The `switch (voucher.planType)` computing the new end date
(`setDate(getDate() + n)` adds exactly n days in milliseconds). -/
def voucherEndDate (now : Nat) (planType : String) : Option Nat :=
  match planType with
  | "DAILY" => some (now + dayMs)
  | "WEEKLY" => some (now + 7 * dayMs)
  | "MONTHLY" => some (now + 30 * dayMs)
  | _ => none

/-- POST /api/vouchers/redeem: find the voucher by normalized code, check
redeemed / expired, then atomically create the new active subscription and
mark the voucher redeemed.  Note: unlike the callback reconciler, this
path performs no deactivation of the user's existing subscriptions. -/
def redeemPOST (now : Nat) (session : Option Session) (code : Option String)
    (st : Store) : Store × RedeemResp :=
  match session with
  | none => (st, .unauthorized)
  | some sess =>
    match code with
    | none => (st, .missingCode)
    | some rawCode =>
      match st.vouchers.find? (fun v => v.code == strTrim (strToUpper rawCode)) with
      | none => (st, .invalidCode)
      | some voucher =>
        if voucher.isRedeemed then (st, .alreadyUsed)
        else if voucher.expiresAt < now then (st, .expired)
        else
          match voucherEndDate now voucher.planType with
          | none => (st, .invalidPlan)
          | some endDate =>
            let st1 : Store :=
              { st with
                subscriptions := st.subscriptions ++
                  [{ userId := sess.userId, planType := voucher.planType
                     startDate := now, endDate := endDate
                     isActive := true, createdAt := now }]
                vouchers := st.vouchers.map fun v =>
                  if v.id = voucher.id then
                    { v with isRedeemed := true
                             redeemedBy := some sess.userId
                             redeemedAt := some now }
                  else v }
            (st1, .ok voucher.planType now endDate)

/-! ## Invariant vocabulary -/

/-- The number of Entitlement Grants of user `u` that are active and whose
end instant is strictly in the future of `t`. -/
def countActiveFuture (subs : List Subscription) (u : String) (t : Nat) : Nat :=
  (subs.filter fun s => s.userId == u && s.isActive && decide (t < s.endDate)).length

/-- The number of grants of user `u` with `active = true`. -/
def countActive (subs : List Subscription) (u : String) : Nat :=
  (subs.filter fun s => s.userId == u && s.isActive).length

/-- The single-active-grant invariant of the spec: for every user and every
instant, at most one active grant with a future end instant. -/
def SingleActiveInvariant (st : Store) : Prop :=
  ∀ u t, countActiveFuture st.subscriptions u t ≤ 1

/-! ## Concrete example data (used to instantiate the theorems) -/

/-- A PENDING payment request of user1 for the WEEKLY plan. -/
def exTx : Transaction :=
  { id := 1, userId := "user1", merchantRequestID := "M1"
    checkoutRequestID := "CO1", amount := 250, phone := "254712345678"
    planType := "WEEKLY", status := "PENDING"
    mpesaReceipt := none, resultDesc := none, createdAt := 1000 }

/-- An active unexpired DAILY grant of user1. -/
def exSub : Subscription :=
  { userId := "user1", planType := "DAILY", startDate := 0
    endDate := 5000000, isActive := true, createdAt := 0 }

/-- A store holding the pending request and the active grant. -/
def exStore : Store :=
  { transactions := [exTx], subscriptions := [exSub], vouchers := []
    users := [{ id := "user1", phone := none }] }

/-- A success callback envelope matching `exTx`. -/
def exCallback : StkCallback :=
  { merchantRequestID := "M1", checkoutRequestID := "CO1", resultCode := 0
    resultDesc := "The service request is processed successfully."
    metadata := some [{ name := "Amount", value := "250" },
                      { name := "MpesaReceiptNumber", value := "QGH12345" }] }

/-- The callback request body wrapping `exCallback`. -/
def exBody : CallbackBody := { stkCallback := some exCallback }

/-- The parse result of `exBody`. -/
def exCd : MpesaCallbackData :=
  { merchantRequestId := "M1", checkoutRequestId := "CO1", resultCode := 0
    resultDesc := "The service request is processed successfully."
    amount := some "250", mpesaReceiptNumber := some "QGH12345"
    transactionDate := none, phoneNumber := none }

/-- An authenticated session of user1. -/
def exSession : Session :=
  { userId := "user1", email := "user1@example.com", name := none, phone := none }

/-- An unredeemed, unexpired WEEKLY voucher. -/
def exVoucher : Voucher :=
  { id := 1, code := "VIP2024", planType := "WEEKLY", isRedeemed := false
    expiresAt := 10000000, redeemedBy := none, redeemedAt := none }

/-- A store where user1 already holds the active grant `exSub` and the
voucher `exVoucher` is available. -/
def exVoucherStore : Store :=
  { transactions := [], subscriptions := [exSub], vouchers := [exVoucher]
    users := [{ id := "user1", phone := none }] }

/-- A store with no subscriptions and no transactions. -/
def exEmptyStore : Store :=
  { transactions := [], subscriptions := [], vouchers := []
    users := [{ id := "user1", phone := none }] }

/-- A request body for the initiation endpoint. -/
def exStkBody : StkBody := { phone := "0712345678", planType := "WEEKLY" }

/-- A processor response rejecting the push. -/
def exFailResp : StkPushResponse :=
  { merchantRequestID := "M2", checkoutRequestID := "CO2"
    responseCode := "1", responseDescription := "Insufficient funds"
    customerMessage := "Request failed" }

/-- A processor response accepting the push. -/
def exOkResp : StkPushResponse :=
  { merchantRequestID := "M2", checkoutRequestID := "CO2"
    responseCode := "0", responseDescription := "Success. Request accepted for processing"
    customerMessage := "Please enter your PIN" }

/-- An empty price environment (hard-coded fallbacks apply). -/
def exEnv : PriceEnv :=
  { priceDaily := none, priceWeekly := none, priceMonthly := none }

/-- A SUCCESS payment request of user1, for the status poller. -/
def exSuccessTx : Transaction :=
  { id := 3, userId := "user1", merchantRequestID := "M3"
    checkoutRequestID := "CO3", amount := 250, phone := "254712345678"
    planType := "WEEKLY", status := "SUCCESS"
    mpesaReceipt := some "QGH12345", resultDesc := some "ok", createdAt := 1000 }

/-- A store for the poller: user1's SUCCESS request and active grant,
plus a foreign user's request. -/
def exPollStore : Store :=
  { transactions := [exSuccessTx,
      { id := 4, userId := "user2", merchantRequestID := "M4"
        checkoutRequestID := "CO4", amount := 50, phone := "254700000000"
        planType := "DAILY", status := "SUCCESS"
        mpesaReceipt := some "ZZZ", resultDesc := none, createdAt := 2000 }]
    subscriptions := [exSub], vouchers := [], users := [] }

/-! ## Theorems: phone normalization (C5) -/

theorem formatPhoneDigits_cons_zero (l : List Char) :
    formatPhoneDigits ('0' :: l) = '2' :: '5' :: '4' :: l := by
  simp [formatPhoneDigits]

theorem formatPhoneDigits_cons_254 (l : List Char) :
    formatPhoneDigits ('2' :: '5' :: '4' :: l) = '2' :: '5' :: '4' :: l := by
  simp [formatPhoneDigits, List.take]

theorem formatPhoneDigits_cons_other (h : Char) (l : List Char)
    (h0 : h ≠ '0') (hp : h ≠ '+') (h2 : h ≠ '2') :
    formatPhoneDigits (h :: l) = '2' :: '5' :: '4' :: h :: l := by
  simp [formatPhoneDigits, List.take, h0, hp, h2]

/-- C5: phone normalization is total and deterministic (a Lean function),
and for every valid subscriber number `d` — nine ASCII digits beginning
with '7' or '1' — the four plausible input forms `0‹d›`, `+254‹d›`,
`254‹d›` and `‹d›` all normalize to the identical canonical string
`254‹d›`. -/
theorem formatPhoneNumber_four_forms (d : List Char)
    (hlen : d.length = 9) (hdig : ∀ c ∈ d, c.isDigit = true)
    (hhead : d.take 1 = ['7'] ∨ d.take 1 = ['1']) :
    formatPhoneNumber (String.mk ('0' :: d)) = String.mk ('2' :: '5' :: '4' :: d) ∧
    formatPhoneNumber (String.mk ('+' :: '2' :: '5' :: '4' :: d)) =
      String.mk ('2' :: '5' :: '4' :: d) ∧
    formatPhoneNumber (String.mk ('2' :: '5' :: '4' :: d)) =
      String.mk ('2' :: '5' :: '4' :: d) ∧
    formatPhoneNumber (String.mk d) = String.mk ('2' :: '5' :: '4' :: d) := by
  have hfilter : d.filter Char.isDigit = d := List.filter_eq_self.mpr hdig
  refine ⟨?_, ?_, ?_, ?_⟩
  · have h1 : (('0' :: d).filter Char.isDigit) = '0' :: d := by
      rw [List.filter_cons_of_pos (by decide), hfilter]
    simp [formatPhoneNumber, String.toList, h1, formatPhoneDigits_cons_zero]
  · have h1 : (('+' :: '2' :: '5' :: '4' :: d).filter Char.isDigit) =
        '2' :: '5' :: '4' :: d := by
      rw [List.filter_cons_of_neg (by decide), List.filter_cons_of_pos (by decide),
        List.filter_cons_of_pos (by decide), List.filter_cons_of_pos (by decide), hfilter]
    simp [formatPhoneNumber, String.toList, h1, formatPhoneDigits_cons_254]
  · have h1 : (('2' :: '5' :: '4' :: d).filter Char.isDigit) =
        '2' :: '5' :: '4' :: d := by
      rw [List.filter_cons_of_pos (by decide), List.filter_cons_of_pos (by decide),
        List.filter_cons_of_pos (by decide), hfilter]
    simp [formatPhoneNumber, String.toList, h1, formatPhoneDigits_cons_254]
  · match d, hhead with
    | h :: t, hh =>
      have hh' : h = '7' ∨ h = '1' := by
        rcases hh with hh | hh <;> simp [List.take] at hh <;> [left; right] <;> exact hh
      have h0 : h ≠ '0' := by rcases hh' with rfl | rfl <;> decide
      have hp : h ≠ '+' := by rcases hh' with rfl | rfl <;> decide
      have h2 : h ≠ '2' := by rcases hh' with rfl | rfl <;> decide
      have hfilter' : (h :: t).filter Char.isDigit = h :: t := hfilter
      simp [formatPhoneNumber, String.toList, hfilter',
        formatPhoneDigits_cons_other h t h0 hp h2]

/-- Witness for C5 at the concrete subscriber number 712345678. -/
theorem formatPhoneNumber_four_forms_witness :
    formatPhoneNumber (String.mk ('0' :: "712345678".toList)) =
      String.mk ('2' :: '5' :: '4' :: "712345678".toList) ∧
    formatPhoneNumber (String.mk ('+' :: '2' :: '5' :: '4' :: "712345678".toList)) =
      String.mk ('2' :: '5' :: '4' :: "712345678".toList) ∧
    formatPhoneNumber (String.mk ('2' :: '5' :: '4' :: "712345678".toList)) =
      String.mk ('2' :: '5' :: '4' :: "712345678".toList) ∧
    formatPhoneNumber (String.mk "712345678".toList) =
      String.mk ('2' :: '5' :: '4' :: "712345678".toList) :=
  formatPhoneNumber_four_forms "712345678".toList (by decide) (by decide) (by decide)

/-! ## Theorems: grant duration anchored to confirmation time (C8) -/

/-- C8: `calculateEndDate` returns the current instant plus the fixed
per-plan duration (1 day for DAILY, 7 for WEEKLY, 30 for MONTHLY), and at
reconciliation the new grant is created with
`endDate = calculateEndDate now planType` and `startDate = now` — for
every transaction, in particular for every value of its `createdAt`, so
the entitlement duration is anchored to confirmation time, not to
initiation time. -/
theorem calculateEndDate_anchored_to_now (now : Nat) (cd : MpesaCallbackData)
    (tx : Transaction) (st : Store) :
    calculateEndDate now "DAILY" = now + dayMs ∧
    calculateEndDate now "WEEKLY" = now + 7 * dayMs ∧
    calculateEndDate now "MONTHLY" = now + 30 * dayMs ∧
    (callbackSuccessPost now cd tx st).subscriptions.getLast? =
      some { userId := tx.userId, planType := tx.planType, startDate := now
             endDate := calculateEndDate now tx.planType
             isActive := true, createdAt := now } := by
  have hd : strToUpper "DAILY" = "DAILY" := by decide
  have hw : strToUpper "WEEKLY" = "WEEKLY" := by decide
  have hm : strToUpper "MONTHLY" = "MONTHLY" := by decide
  refine ⟨by simp [calculateEndDate, hd], by simp [calculateEndDate, hd, hw],
    by simp [calculateEndDate, hd, hw, hm], ?_⟩
  simp [callbackSuccessPost, createSub, deactivateSubs, updateTxSuccess, newGrant]

/-! ## Theorems: the callback endpoint always acknowledges (C4) -/

/-- C4: for every inbound callback request — well-formed, malformed,
unmatched, already resolved, or hitting an internal fault inside the
transaction block — the endpoint responds HTTP 200 with a `ResultCode 0`
acknowledgement body; it never returns an error response. -/
theorem callback_always_acknowledges (now : Nat) (body : Option CallbackBody)
    (fault : Option Nat) (st : Store) :
    (callbackPOST now body fault st).2.httpStatus = 200 ∧
    (callbackPOST now body fault st).2.resultCode = 0 := by
  constructor <;>
  · unfold callbackPOST
    repeat' split
    all_goals rfl

/-! ## Helper lemmas on the store operations -/

theorem find?_map_of_pred_inv {α : Type} (f : α → α) (p : α → Bool)
    (l : List α) (hf : ∀ x, p (f x) = p x) :
    (l.map f).find? p = (l.find? p).map f := by
  induction l with
  | nil => rfl
  | cons x xs ih =>
    simp only [List.map_cons, List.find?]
    rw [hf x]
    cases hx : p x <;> simp [hx, ih]

theorem countActive_append (l₁ l₂ : List Subscription) (u : String) :
    countActive (l₁ ++ l₂) u = countActive l₁ u + countActive l₂ u := by
  simp [countActive, List.filter_append]

theorem countActive_deactivate (subs : List Subscription) (u : String) :
    countActive (subs.map (deactivateFn u)) u = 0 := by
  induction subs with
  | nil => rfl
  | cons s rest ih =>
    have hs : ((deactivateFn u s).userId == u && (deactivateFn u s).isActive) = false := by
      unfold deactivateFn
      by_cases hu : s.userId = u
      · by_cases ha : s.isActive
        · simp [hu, ha]
        · simp [hu, ha]
      · simp [hu]
    simp only [List.map_cons, countActive, List.filter_cons, hs, if_false]
    exact ih

theorem runPrismaTxn_ok {steps : List (Store → Store)} {fault : Option Nat}
    {st st' : Store} (h : runPrismaTxn steps fault st = .ok st') :
    st' = steps.foldl (fun s f => f s) st := by
  unfold runPrismaTxn at h
  cases fault with
  | none =>
    simp at h
    exact h.symm
  | some k =>
    by_cases hk : k < steps.length <;> simp [hk] at h
    exact h.symm

theorem callbackPOST_pending_success (now : Nat) (b : CallbackBody)
    (cd : MpesaCallbackData) (st : Store) (tx : Transaction)
    (hparse : parseCallback b = .ok cd)
    (hfind : st.transactions.find?
      (fun t => t.checkoutRequestID == cd.checkoutRequestId) = some tx)
    (hpend : tx.status = "PENDING") (hrc : cd.resultCode = 0) :
    callbackPOST now (some b) none st =
      (callbackSuccessPost now cd tx st, ackProcessed) := by
  simp [callbackPOST, hparse, hfind, hpend, hrc, runPrismaTxn,
    callbackTxnSteps, callbackSuccessPost]

theorem find?_after_success (now : Nat) (cd : MpesaCallbackData)
    (st : Store) (tx : Transaction)
    (hfind : st.transactions.find?
      (fun t => t.checkoutRequestID == cd.checkoutRequestId) = some tx) :
    (callbackSuccessPost now cd tx st).transactions.find?
      (fun t => t.checkoutRequestID == cd.checkoutRequestId) =
      some (successTx cd tx) := by
  have hmap : (callbackSuccessPost now cd tx st).transactions =
      st.transactions.map (fun t => if t.id = tx.id then successTx cd t else t) := by
    simp [callbackSuccessPost, createSub, deactivateSubs, updateTxSuccess, successTx]
  rw [hmap, find?_map_of_pred_inv _ _ _ (fun x => by
    by_cases hx : x.id = tx.id <;> simp [hx, successTx]), hfind]
  simp

theorem countActive_after_success (now : Nat) (cd : MpesaCallbackData)
    (st : Store) (tx : Transaction) :
    countActive (callbackSuccessPost now cd tx st).subscriptions tx.userId = 1 := by
  have : (callbackSuccessPost now cd tx st).subscriptions =
      (st.subscriptions.map (deactivateFn tx.userId)) ++
        [newGrant now tx.userId tx.planType] := by
    simp [callbackSuccessPost, createSub, deactivateSubs, updateTxSuccess]
  rw [this, countActive_append, countActive_deactivate]
  simp [countActive, newGrant, List.filter]

/-! ## Theorems: idempotent reconciliation (C2) -/

/-- C2: a callback whose matched Payment Request is not PENDING changes no
state and returns the acknowledgement; consequently a second delivery of
the identical success callback is a no-op, the request stays SUCCESS, and
the user holds exactly one active Entitlement Grant. -/
theorem callback_reconciliation_idempotent (now now' : Nat) (b : CallbackBody)
    (cd : MpesaCallbackData) (st : Store) (tx : Transaction)
    (hparse : parseCallback b = .ok cd)
    (hfind : st.transactions.find?
      (fun t => t.checkoutRequestID == cd.checkoutRequestId) = some tx) :
    (tx.status ≠ "PENDING" → callbackPOST now (some b) none st = (st, ackAccepted)) ∧
    (tx.status = "PENDING" → cd.resultCode = 0 →
      callbackPOST now' (some b) none (callbackPOST now (some b) none st).1 =
        ((callbackPOST now (some b) none st).1, ackAccepted) ∧
      ((callbackPOST now (some b) none st).1.transactions.find?
          (fun t => t.checkoutRequestID == cd.checkoutRequestId)).map
          Transaction.status = some "SUCCESS" ∧
      countActive (callbackPOST now (some b) none st).1.subscriptions tx.userId = 1) := by
  constructor
  · intro hpend
    simp [callbackPOST, hparse, hfind, hpend]
  · intro hpend hrc
    have h1 := callbackPOST_pending_success now b cd st tx hparse hfind hpend hrc
    have hfind' := find?_after_success now cd st tx hfind
    refine ⟨?_, ?_, ?_⟩
    · rw [h1]
      simp [callbackPOST, hparse, hfind', successTx]
    · rw [h1]
      simp [hfind', successTx]
    · rw [h1]
      exact countActive_after_success now cd st tx

/-! ## Theorems: atomicity of the success transition (C3) -/

/-- C3: on a success callback for a PENDING request, whatever fault (if
any) interrupts the transaction block, the store is either the full
pre-state (request still PENDING, grants untouched) or the full
post-state (request SUCCESS, exactly one active grant for the user) —
never a mix. -/
theorem callback_success_atomic (now : Nat) (b : CallbackBody)
    (cd : MpesaCallbackData) (fault : Option Nat) (st : Store) (tx : Transaction)
    (hparse : parseCallback b = .ok cd)
    (hfind : st.transactions.find?
      (fun t => t.checkoutRequestID == cd.checkoutRequestId) = some tx)
    (hpend : tx.status = "PENDING") (hrc : cd.resultCode = 0) :
    ((callbackPOST now (some b) fault st).1 = st ∧
      st.transactions.find?
        (fun t => t.checkoutRequestID == cd.checkoutRequestId) = some tx ∧
      tx.status = "PENDING") ∨
    ((callbackPOST now (some b) fault st).1 = callbackSuccessPost now cd tx st ∧
      ((callbackPOST now (some b) fault st).1.transactions.find?
          (fun t => t.checkoutRequestID == cd.checkoutRequestId)).map
          Transaction.status = some "SUCCESS" ∧
      countActive (callbackPOST now (some b) fault st).1.subscriptions tx.userId = 1) := by
  have hcb : callbackPOST now (some b) fault st =
      match runPrismaTxn (callbackTxnSteps now cd tx) fault st with
      | .ok st' => (st', ackProcessed)
      | .error _ => (st, ackAccepted) := by
    simp [callbackPOST, hparse, hfind, hpend, hrc]
  cases hrun : runPrismaTxn (callbackTxnSteps now cd tx) fault st with
  | error e =>
    left
    rw [hcb, hrun]
    exact ⟨rfl, hfind, hpend⟩
  | ok st' =>
    have hst' : st' = callbackSuccessPost now cd tx st := by
      have := runPrismaTxn_ok hrun
      simpa [callbackTxnSteps, callbackSuccessPost] using this
    right
    rw [hcb, hrun]
    refine ⟨hst', ?_, ?_⟩
    · rw [hst', find?_after_success now cd st tx hfind]
      simp [successTx]
    · rw [hst']
      exact countActive_after_success now cd st tx

/-- Witness for C2: the concrete success callback `exBody` delivered twice
against `exStore`. -/
theorem callback_reconciliation_idempotent_witness :
    callbackPOST 2000 (some exBody) none (callbackPOST 1500 (some exBody) none exStore).1 =
      ((callbackPOST 1500 (some exBody) none exStore).1, ackAccepted) ∧
    ((callbackPOST 1500 (some exBody) none exStore).1.transactions.find?
        (fun t => t.checkoutRequestID == exCd.checkoutRequestId)).map
        Transaction.status = some "SUCCESS" ∧
    countActive (callbackPOST 1500 (some exBody) none exStore).1.subscriptions
      exTx.userId = 1 :=
  (callback_reconciliation_idempotent 1500 2000 exBody exCd exStore exTx
    rfl rfl).2 rfl rfl

/-- Witness for C3: a fault at the second write of the transaction block. -/
theorem callback_success_atomic_witness :
    ((callbackPOST 1500 (some exBody) (some 1) exStore).1 = exStore ∧
      exStore.transactions.find?
        (fun t => t.checkoutRequestID == exCd.checkoutRequestId) = some exTx ∧
      exTx.status = "PENDING") ∨
    ((callbackPOST 1500 (some exBody) (some 1) exStore).1 =
        callbackSuccessPost 1500 exCd exTx exStore ∧
      ((callbackPOST 1500 (some exBody) (some 1) exStore).1.transactions.find?
          (fun t => t.checkoutRequestID == exCd.checkoutRequestId)).map
          Transaction.status = some "SUCCESS" ∧
      countActive (callbackPOST 1500 (some exBody) (some 1) exStore).1.subscriptions
        exTx.userId = 1) :=
  callback_success_atomic 1500 exBody exCd (some 1) exStore exTx
    rfl rfl rfl rfl

/-! ## Theorems: the single-active-grant invariant (C1) -/

/-- Counterexample to C1: voucher redemption does not deactivate prior
grants.  From a store satisfying the invariant (user1 holds one active
grant), redeeming the valid voucher `vip2024` yields a state where user1
has two grants with `active = true` and end instant in the future — so
the claimed "at most one" bound, and the claim that every write path
deactivates before inserting, both fail. -/
theorem single_active_grant_counterexample :
    ¬ (countActiveFuture
        (redeemPOST 1000 (some exSession) (some "vip2024") exVoucherStore).1.subscriptions
        "user1" 1000 ≤ 1) := by decide

theorem countActiveFuture_append (l₁ l₂ : List Subscription) (u : String) (t : Nat) :
    countActiveFuture (l₁ ++ l₂) u t =
      countActiveFuture l₁ u t + countActiveFuture l₂ u t := by
  simp [countActiveFuture, List.filter_append]

theorem countActiveFuture_deactivate_self (subs : List Subscription) (u : String) (t : Nat) :
    countActiveFuture (subs.map (deactivateFn u)) u t = 0 := by
  induction subs with
  | nil => rfl
  | cons s rest ih =>
    have hs : ((deactivateFn u s).userId == u && ((deactivateFn u s).isActive &&
        decide (t < (deactivateFn u s).endDate))) = false := by
      unfold deactivateFn
      by_cases hu : s.userId = u
      · by_cases ha : s.isActive
        · simp [hu, ha]
        · simp [hu, ha]
      · simp [hu]
    simp only [List.map_cons, countActiveFuture, List.filter_cons, Bool.and_assoc,
      hs, if_false]
    simpa [countActiveFuture, Bool.and_assoc] using ih

theorem countActiveFuture_deactivate_other (subs : List Subscription)
    (u₀ u : String) (t : Nat) (h : u ≠ u₀) :
    countActiveFuture (subs.map (deactivateFn u₀)) u t = countActiveFuture subs u t := by
  induction subs with
  | nil => rfl
  | cons s rest ih =>
    by_cases hu : s.userId = u₀ ∧ s.isActive = true
    · have hdf : deactivateFn u₀ s = { s with isActive := false } := by
        simp [deactivateFn, hu.1, hu.2]
      have hne : (s.userId == u) = false := by
        simp [hu.1]
        exact fun he => h he.symm
      simp only [List.map_cons, countActiveFuture, List.filter_cons, hdf]
      simp only [countActiveFuture] at ih
      simp [hne, ih]
    · have hdf : deactivateFn u₀ s = s := by
        simp only [deactivateFn, ite_eq_right_iff]
        intro hc
        exact absurd ⟨hc.1, hc.2⟩ hu
      rw [List.map_cons, hdf]
      simp only [countActiveFuture, List.filter_cons] at ih ⊢
      split <;> simp [ih]

theorem callbackTxnSteps_foldl_subscriptions (now : Nat) (cd : MpesaCallbackData)
    (tx : Transaction) (st : Store) :
    ((callbackTxnSteps now cd tx).foldl (fun s f => f s) st).subscriptions =
      (st.subscriptions.map (deactivateFn tx.userId)) ++
        [newGrant now tx.userId tx.planType] := by
  simp [callbackTxnSteps, createSub, deactivateSubs, updateTxSuccess]

/-- Every outcome of the callback handler leaves the subscriptions table
unchanged, or replaces it by "deactivate all of one user's active rows,
then append one new grant of that user". -/
theorem callbackPOST_subscriptions_cases (now : Nat) (body : Option CallbackBody)
    (fault : Option Nat) (st : Store) :
    (callbackPOST now body fault st).1.subscriptions = st.subscriptions ∨
    ∃ u p, (callbackPOST now body fault st).1.subscriptions =
      (st.subscriptions.map (deactivateFn u)) ++ [newGrant now u p] := by
  unfold callbackPOST
  repeat' split
  all_goals try exact Or.inl rfl
  next st' hrun =>
    rename_i tx hfind hpend hrc x
    exact Or.inr ⟨tx.userId, tx.planType,
      by rw [runPrismaTxn_ok hrun, callbackTxnSteps_foldl_subscriptions]⟩

/-- C1 amended: the callback-reconciliation write path preserves the
single-active-grant invariant (it deactivates all of the user's active
grants inside the same transaction that inserts the new one); the voucher
redemption path does not, as the counterexample shows. -/
theorem callback_preserves_single_active_invariant (now : Nat)
    (body : Option CallbackBody) (fault : Option Nat) (st : Store)
    (hinv : SingleActiveInvariant st) :
    SingleActiveInvariant (callbackPOST now body fault st).1 := by
  rcases callbackPOST_subscriptions_cases now body fault st with h | ⟨u, p, h⟩
  · intro v t
    rw [countActiveFuture, h]
    exact hinv v t
  · intro v t
    rw [countActiveFuture, h, ← countActiveFuture, countActiveFuture_append]
    by_cases hv : v = u
    · rw [hv, countActiveFuture_deactivate_self]
      simpa [countActiveFuture] using List.length_filter_le _ _
    · rw [countActiveFuture_deactivate_other _ _ _ _ hv]
      have hne : ((newGrant now u p).userId == v) = false := by
        simp [newGrant]
        exact Ne.symm hv
      have h2 : countActiveFuture [newGrant now u p] v t = 0 := by
        simp [countActiveFuture, List.filter, hne]
      rw [h2]
      simpa using hinv v t

/-- Witness for the amended C1 at the concrete success reconciliation. -/
theorem callback_preserves_single_active_invariant_witness :
    SingleActiveInvariant (callbackPOST 1500 (some exBody) none exStore).1 :=
  callback_preserves_single_active_invariant 1500 (some exBody) none exStore
    (fun _ _ => List.length_filter_le _ _)

/-! ## Theorems: initiation preconditions, in order (C6) -/

/-- C6: payment initiation checks its four preconditions in order —
authentication, body shape, no active non-expired subscription, no
PENDING request from the last 5 minutes — and each failure halts with its
own distinct response before the processor result is ever consulted (every
conjunct holds for an arbitrary processor oracle `pr`); the
active-subscription rejection carries the existing grant's end instant and
the pending-collision rejection carries that request's checkout id. -/
theorem stkpush_preconditions_in_order (now : Nat) (sess : Session)
    (body : StkBody) (env : PriceEnv) (txId : Nat) (st : Store) :
    (∀ pr, stkpushPOST now none body pr env txId st = (st, .unauthorized)) ∧
    (∀ pr msg, stkPushValidate body = .error msg →
      stkpushPOST now (some sess) body pr env txId st = (st, .badRequest msg)) ∧
    (∀ pr s, stkPushValidate body = .ok body →
      st.subscriptions.find? (fun s =>
        s.userId == sess.userId && s.isActive && now ≤ s.endDate) = some s →
      stkpushPOST now (some sess) body pr env txId st =
        (st, .activeSub "You already have an active subscription" s.endDate)) ∧
    (∀ pr t, stkPushValidate body = .ok body →
      st.subscriptions.find? (fun s =>
        s.userId == sess.userId && s.isActive && now ≤ s.endDate) = none →
      st.transactions.find? (fun t =>
        t.userId == sess.userId && t.status == "PENDING" &&
        now - 5 * 60 * 1000 ≤ t.createdAt) = some t →
      stkpushPOST now (some sess) body pr env txId st =
        (st, .pendingTx
          "You have a pending payment. Please check your phone or wait a moment."
          t.checkoutRequestID)) := by
  refine ⟨fun pr => rfl, fun pr msg hval => ?_, fun pr s hval hsub => ?_,
    fun pr t hval hsub hpend => ?_⟩
  · simp [stkpushPOST, hval]
  · simp [stkpushPOST, hval, hsub]
  · simp only [stkpushPOST, hval, hsub, hpend]

/-- Witness for C6: user1 already holds the active grant `exSub`, so the
initiation is rejected with that grant's end instant, whatever the
processor would have answered. -/
theorem stkpush_preconditions_in_order_witness :
    stkpushPOST 1500 (some exSession) exStkBody (.error "network down") exEnv 2 exStore =
      (exStore, .activeSub "You already have an active subscription" exSub.endDate) :=
  (stkpush_preconditions_in_order 1500 exSession exStkBody exEnv 2 exStore).2.2.1
    (.error "network down") exSub rfl rfl

/-! ## Theorems: processor outcome and the single PENDING insert (C7) -/

/-- C7: past all preconditions, a non-zero processor response code yields
the processor's response description as the error and leaves the store
untouched (no Payment Request row persisted); a `"0"` response code
appends exactly one transaction row, with status PENDING, and returns the
customer message with the checkout id. -/
theorem stkpush_processor_outcome (now : Nat) (sess : Session) (body : StkBody)
    (resp : StkPushResponse) (env : PriceEnv) (txId : Nat) (st : Store)
    (hval : stkPushValidate body = .ok body)
    (hsub : st.subscriptions.find? (fun s =>
      s.userId == sess.userId && s.isActive && now ≤ s.endDate) = none)
    (hpend : st.transactions.find? (fun t =>
      t.userId == sess.userId && t.status == "PENDING" &&
      now - 5 * 60 * 1000 ≤ t.createdAt) = none) :
    (resp.responseCode ≠ "0" → resp.responseDescription ≠ "" →
      stkpushPOST now (some sess) body (.ok resp) env txId st =
        (st, .stkFail resp.responseDescription)) ∧
    (resp.responseCode = "0" →
      (stkpushPOST now (some sess) body (.ok resp) env txId st).1.transactions =
        st.transactions ++
          [{ id := txId, userId := sess.userId
             merchantRequestID := resp.merchantRequestID
             checkoutRequestID := resp.checkoutRequestID
             amount := getPlanPrice env body.planType
             phone := formatPhoneNumber body.phone, planType := body.planType
             status := "PENDING", mpesaReceipt := none, resultDesc := none
             createdAt := now }] ∧
      (stkpushPOST now (some sess) body (.ok resp) env txId st).2 =
        .ok resp.customerMessage resp.checkoutRequestID) := by
  constructor
  · intro hrc hdesc
    simp only [stkpushPOST, hval, hsub, hpend]
    rw [if_pos hrc, if_neg hdesc]
  · intro hrc
    by_cases hphone : sess.phone = none <;>
    · simp only [stkpushPOST, hval, hsub, hpend]
      rw [if_neg (not_not_intro hrc)]
      simp [createPendingTx, updateUserPhone, hphone]

/-- Witness for C7: the processor rejects the push for user1 against the
empty store; no transaction row is persisted. -/
theorem stkpush_processor_outcome_witness :
    stkpushPOST 1500 (some exSession) exStkBody (.ok exFailResp) exEnv 2 exEmptyStore =
      (exEmptyStore, .stkFail exFailResp.responseDescription) :=
  (stkpush_processor_outcome 1500 exSession exStkBody exFailResp exEnv 2 exEmptyStore
    rfl rfl rfl).1 (by decide) (by decide)

/-! ## Theorems: ownership isolation in the status poller (C9) -/

/-- C9: when every transaction carrying the polled checkout id belongs to
a user other than the caller (in particular when it belongs to some user
B, or when no such transaction exists), the status endpoint answers with
the bare not-found response, which carries no transaction or subscription
data of anyone. -/
theorem status_ownership_isolation (now : Nat) (sess : Session) (cid : String)
    (st : Store)
    (h : ∀ t ∈ st.transactions, t.checkoutRequestID = cid → t.userId ≠ sess.userId) :
    statusGET now (some sess) (some cid) st = .notFound := by
  have hfind : st.transactions.find? (fun t =>
      t.checkoutRequestID == cid && t.userId == sess.userId) = none := by
    rw [List.find?_eq_none]
    intro x hx
    simp only [Bool.and_eq_true, beq_iff_eq, not_and]
    intro h1 h2
    exact h x hx h1 h2
  simp [statusGET, hfind]

/-- Witness for C9: user1 polls the checkout id CO4, which belongs to
user2. -/
theorem status_ownership_isolation_witness :
    statusGET 1500 (some exSession) (some "CO4") exPollStore = .notFound :=
  status_ownership_isolation 1500 exSession "CO4" exPollStore (by decide)

/-! ## Theorems: the subscription returned by the poller (C10) -/

theorem pickLatest_foldl_ne_none (l : List Subscription) :
    ∀ b : Subscription, l.foldl pickLatest (some b) ≠ none := by
  induction l with
  | nil => intro b h; exact Option.noConfusion h
  | cons x xs ih =>
    intro b
    show xs.foldl pickLatest (pickLatest (some b) x) ≠ none
    by_cases hb : b.createdAt < x.createdAt
    · rw [show pickLatest (some b) x = some x by simp [pickLatest, hb]]
      exact ih x
    · rw [show pickLatest (some b) x = some b by simp [pickLatest, hb]]
      exact ih b

theorem pickLatest_foldl_mem (l : List Subscription) :
    ∀ (acc : Option Subscription) (s : Subscription),
      l.foldl pickLatest acc = some s → s ∈ l ∨ acc = some s := by
  induction l with
  | nil => intro acc s h; right; exact h
  | cons x xs ih =>
    intro acc s h
    rcases ih (pickLatest acc x) s h with hmem | hacc
    · exact Or.inl (List.mem_cons_of_mem _ hmem)
    · cases acc with
      | none =>
        left
        have : x = s := by simpa [pickLatest] using hacc
        rw [this]
        exact List.mem_cons_self _ _
      | some b =>
        by_cases hb : b.createdAt < x.createdAt
        · left
          have : x = s := by simpa [pickLatest, hb] using hacc
          rw [this]
          exact List.mem_cons_self _ _
        · right
          simpa [pickLatest, hb] using hacc

theorem pickLatest_foldl_ge (l : List Subscription) :
    ∀ (acc : Option Subscription) (s : Subscription),
      l.foldl pickLatest acc = some s →
      (∀ x ∈ l, x.createdAt ≤ s.createdAt) ∧
      (∀ b, acc = some b → b.createdAt ≤ s.createdAt) := by
  induction l with
  | nil =>
    intro acc s h
    refine ⟨fun x hx => absurd hx (List.not_mem_nil x), fun b hb => ?_⟩
    rw [hb] at h
    cases h
    exact Nat.le_refl _
  | cons x xs ih =>
    intro acc s h
    obtain ⟨hxs, hacc⟩ := ih (pickLatest acc x) s h
    have hxle : x.createdAt ≤ s.createdAt := by
      cases acc with
      | none => exact hacc x rfl
      | some b =>
        by_cases hb : b.createdAt < x.createdAt
        · exact hacc x (by simp [pickLatest, hb])
        · exact Nat.le_trans (Nat.le_of_not_lt hb) (hacc b (by simp [pickLatest, hb]))
    refine ⟨fun y hy => ?_, fun b hb => ?_⟩
    · rcases List.mem_cons.mp hy with rfl | hy'
      · exact hxle
      · exact hxs y hy'
    · cases acc with
      | none => cases hb
      | some b' =>
        cases hb
        by_cases hbx : b.createdAt < x.createdAt
        · exact Nat.le_trans (Nat.le_of_lt hbx) hxle
        · exact hacc b (by simp [pickLatest, hbx])

/-- C10: when the polled request reads SUCCESS, the returned subscription
is `latestActiveSub` of the caller's user id alone — a query not linked
to the payment request — and that selection is: `none` exactly when the
caller has no active unexpired subscription (the response status still
reading SUCCESS), and otherwise an active unexpired subscription of the
caller whose creation instant is maximal among all of the caller's active
unexpired subscriptions, whichever write path created it. -/
theorem status_success_latest_subscription (now : Nat) (sess : Session)
    (cid : String) (st : Store) (tx : Transaction)
    (hfind : st.transactions.find? (fun t =>
      t.checkoutRequestID == cid && t.userId == sess.userId) = some tx)
    (hsucc : tx.status = "SUCCESS") :
    statusGET now (some sess) (some cid) st =
      .ok "SUCCESS" tx.mpesaReceipt tx.resultDesc
        ((latestActiveSub sess.userId now st.subscriptions).map
          (fun s => SubView.mk s.planType s.endDate)) ∧
    (latestActiveSub sess.userId now st.subscriptions = none ↔
      ∀ s ∈ st.subscriptions,
        ¬(s.userId = sess.userId ∧ s.isActive = true ∧ now ≤ s.endDate)) ∧
    (∀ s, latestActiveSub sess.userId now st.subscriptions = some s →
      s ∈ st.subscriptions ∧ s.userId = sess.userId ∧ s.isActive = true ∧
      now ≤ s.endDate ∧
      ∀ s' ∈ st.subscriptions, s'.userId = sess.userId → s'.isActive = true →
        now ≤ s'.endDate → s'.createdAt ≤ s.createdAt) := by
  refine ⟨by simp [statusGET, hfind, hsucc], ?_, ?_⟩
  · unfold latestActiveSub
    constructor
    · intro hnone s hs
      cases hflt : st.subscriptions.filter
          (fun s => s.userId == sess.userId && s.isActive && decide (now ≤ s.endDate)) with
      | nil =>
        have := List.filter_eq_nil_iff.mp hflt s hs
        simpa using this
      | cons y ys =>
        rw [hflt] at hnone
        exact absurd hnone (pickLatest_foldl_ne_none ys y)
    · intro hall
      have hflt : st.subscriptions.filter
          (fun s => s.userId == sess.userId && s.isActive && decide (now ≤ s.endDate)) = [] := by
        rw [List.filter_eq_nil_iff]
        intro s hs
        have := hall s hs
        simpa using this
      rw [hflt]
      rfl
  · intro s hsome
    unfold latestActiveSub at hsome
    have hmem : s ∈ st.subscriptions.filter
        (fun s => s.userId == sess.userId && s.isActive && decide (now ≤ s.endDate)) := by
      rcases pickLatest_foldl_mem _ none s hsome with hm | hn
      · exact hm
      · exact Option.noConfusion hn
    have hprops := List.mem_filter.mp hmem
    have hp : s.userId = sess.userId ∧ s.isActive = true ∧ now ≤ s.endDate := by
      simpa [and_assoc] using hprops.2
    refine ⟨hprops.1, hp.1, hp.2.1, hp.2.2, fun s' hs' h1 h2 h3 => ?_⟩
    have hmem' : s' ∈ st.subscriptions.filter
        (fun s => s.userId == sess.userId && s.isActive && decide (now ≤ s.endDate)) :=
      List.mem_filter.mpr ⟨hs', by simp [h1, h2, h3]⟩
    exact (pickLatest_foldl_ge _ none s hsome).1 s' hmem'

/-- Witness for C10: user1 polls CO3 (a SUCCESS request) against
`exPollStore`. -/
theorem status_success_latest_subscription_witness :
    statusGET 1500 (some exSession) (some "CO3") exPollStore =
      .ok "SUCCESS" exSuccessTx.mpesaReceipt exSuccessTx.resultDesc
        ((latestActiveSub exSession.userId 1500 exPollStore.subscriptions).map
          (fun s => SubView.mk s.planType s.endDate)) ∧
    (latestActiveSub exSession.userId 1500 exPollStore.subscriptions = none ↔
      ∀ s ∈ exPollStore.subscriptions,
        ¬(s.userId = exSession.userId ∧ s.isActive = true ∧ 1500 ≤ s.endDate)) ∧
    (∀ s, latestActiveSub exSession.userId 1500 exPollStore.subscriptions = some s →
      s ∈ exPollStore.subscriptions ∧ s.userId = exSession.userId ∧
      s.isActive = true ∧ 1500 ≤ s.endDate ∧
      ∀ s' ∈ exPollStore.subscriptions, s'.userId = exSession.userId →
        s'.isActive = true → 1500 ≤ s'.endDate → s'.createdAt ≤ s.createdAt) :=
  status_success_latest_subscription 1500 exSession "CO3" exPollStore exSuccessTx
    rfl rfl

end SureOdds
